import Mathlib

/-!
Verification of the DBMesh data-panel MySQL front end.

Shallow embedding of the repository's Rust sources:
* `src/data-panel/src/handler/mysql/text.rs` — `ComQueryHandler::handle`
* `src/data-panel/src/handler/mysql/mod.rs` — `CommandRootHandler`, `AuthHandler`,
  `ComPingHandler`, `ComQuitHandler`, and the `test_route` test
* `src/data-panel/src/parser/sql/mod.rs` — `SQLStatementContext` and friends
* `src/data-panel/src/parser/mysql.rs` — the plain statement parser wrapper
* `src/data-panel/src/main.rs` — the accept loop's authorization flag

Parts of the repository that the claims need but that are not present in the
source tree (the `session` module, the `protocol::database::mysql::constant`
module, and `parser/sql/rewrite.rs`) are modelled from the specification and
are marked `Modelled from the spec:` in their doc comments.
-/

/-! ## Backend result model

The `mysql` crate's `Value` for one result cell, as matched by
`ComQueryHandler::handle` (text.rs lines 104-108).  Payloads of the variants
other than `bytes` are irrelevant to that match (its catch-all arm discards
them), so the date/time/float variants carry no payload here. -/

inductive Value where
  | bytes (data : List Nat)
  | null
  | int (i : Int)
  | uint (u : Nat)
  | floatV
  | dateV
  | timeV
deriving DecidableEq

/-- Column metadata drawn from a backend result set, with exactly the fields
that `ComQueryHandler::handle` copies into a `MySQLColumnDefinition41Packet`
(text.rs lines 62-85). -/
structure ColumnMeta where
  characterSet : Nat
  flags : Nat
  schema : String
  table : String
  orgTable : String
  name : String
  orgName : String
  columnLength : Nat
  columnType : Nat
  decimals : Nat
deriving DecidableEq

/-- One backend result set as consumed by `ComQueryHandler::handle`: the
column descriptors, the rows (each an ordered list of cell values), and the
terminal status fields used by the `SetVariable` arm
(`affected_rows`, `last_insert_id`). -/
structure TextResultSet where
  columns : List ColumnMeta
  rows : List (List Value)
  affectedRows : Nat
  lastInsertId : Option Nat
deriving DecidableEq

/-! ## Response packets emitted by the handlers -/

/-- The response packets the embedded handlers construct, each carrying the
sequence id passed to the corresponding Rust packet constructor. -/
inductive RespPacket where
  | fieldCount (sequenceId : Nat) (columnCount : Nat)
  | columnDefinition (sequenceId : Nat) (c : ColumnMeta)
  | eof (sequenceId : Nat)
  | textRow (sequenceId : Nat) (datas : List (Bool × List Nat))
  | ok (sequenceId : Nat) (affectedRows : Nat) (lastInsertId : Nat)
  | err (sequenceId : Nat) (code : Nat) (message : String)
deriving DecidableEq

/-- The variant tag of a response packet, used to state packet-shape
properties independently of sequence ids and payloads. -/
inductive PacketKind where
  | fieldCount
  | columnDefinition
  | eof
  | textRow
  | ok
  | err
deriving DecidableEq

def kindOf : RespPacket → PacketKind
  | .fieldCount .. => .fieldCount
  | .columnDefinition .. => .columnDefinition
  | .eof .. => .eof
  | .textRow .. => .textRow
  | .ok .. => .ok
  | .err .. => .err

def seqIdOf : RespPacket → Nat
  | .fieldCount s _ => s
  | .columnDefinition s _ => s
  | .eof s => s
  | .textRow s _ => s
  | .ok s _ _ => s
  | .err s _ _ => s

def seqIds (ps : List RespPacket) : List Nat := ps.map seqIdOf

/-- A list of numbers is strictly increasing from one entry to the next. -/
def strictlyIncreasing : List Nat → Bool
  | [] => true
  | [_] => true
  | a :: b :: rest => decide (a < b) && strictlyIncreasing (b :: rest)

def isOkPacket : RespPacket → Bool
  | .ok .. => true
  | _ => false

/-! ## ComQueryHandler::handle (text.rs) -/

/-- The cell re-encoding match of `ComQueryHandler::handle`
(text.rs lines 104-108):
`Value::Bytes(data) => (true, data.clone())`,
`Value::NULL => (false, Vec::new())`,
`_ => (true, Vec::new())`. -/
def cellData : Value → Bool × List Nat
  | .bytes data => (true, data)
  | .null => (false, [])
  | _ => (true, [])

/-- One row's `datas` vector (text.rs lines 101-110): the cell at each column
index, re-encoded by `cellData`.  The source indexes the row with
`row.as_ref(column_index).unwrap()`; backend rows always have one cell per
column, so the default value of the out-of-range lookup is never reached. -/
def rowData (columnsSize : Nat) (row : List Value) : List (Bool × List Nat) :=
  (List.range columnsSize).map (fun i => cellData (row.getD i Value.null))

/-- The column-definition loop (text.rs lines 59-90): before each column the
counter is incremented, then a `ColumnDefinition` packet is emitted at the new
value.  Returns the final counter value and the emitted packets. -/
def emitColumnDefs : Nat → List ColumnMeta → Nat × List RespPacket
  | seq, [] => (seq, [])
  | seq, c :: rest =>
    let r := emitColumnDefs (seq + 1) rest
    (r.1, RespPacket.columnDefinition (seq + 1) c :: r.2)

/-- The row loop (text.rs lines 99-118): before each row the counter is
incremented, then a `TextRow` packet is emitted at the new value. -/
def emitRows : Nat → Nat → List (List Value) → Nat × List RespPacket
  | seq, _, [] => (seq, [])
  | seq, columnsSize, row :: rest =>
    let r := emitRows (seq + 1) columnsSize rest
    (r.1, RespPacket.textRow (seq + 1) (rowData columnsSize row) :: r.2)

/-- One iteration of the `while let Some(result_set)` loop in the
`Statement::Query` arm (text.rs lines 47-126): a `FieldCount` packet at the
*current* counter value (no increment before it), the column definitions, an
`Eof`, the rows, and a closing `Eof`; returns the final counter value and the
packets in emission order. -/
def emitResultSet (seq : Nat) (rs : TextResultSet) : Nat × List RespPacket :=
  let columnsSize := rs.columns.length
  let cols := emitColumnDefs seq rs.columns
  let eofSeq1 := cols.1 + 1
  let rows := emitRows eofSeq1 columnsSize rs.rows
  let eofSeq2 := rows.1 + 1
  (eofSeq2,
    RespPacket.fieldCount seq columnsSize
      :: (cols.2 ++ RespPacket.eof eofSeq1 :: (rows.2 ++ [RespPacket.eof eofSeq2])))

/-- The whole result-set loop of the `Statement::Query` arm, threading the
counter from one result set to the next exactly as the source's single
`global_sequence_id` variable does. -/
def emitQuerySets : Nat → List TextResultSet → List RespPacket
  | _, [] => []
  | seq, rs :: rest =>
    let r := emitResultSet seq rs
    r.2 ++ emitQuerySets r.1 rest

/-- The `Statement::Query` arm of `ComQueryHandler::handle`:
`global_sequence_id` starts at the constant `1` (text.rs line 45). -/
def emitQuery (sets : List TextResultSet) : List RespPacket :=
  emitQuerySets 1 sets

/-- The `Statement::SetVariable` arm (text.rs lines 128-152): one `Ok` packet
per backend result set, each built with the never-incremented
`global_sequence_id = 1`, the set's `affected_rows`, and its
`last_insert_id` defaulted to `0`. -/
def emitSetVariable (sets : List TextResultSet) : List RespPacket :=
  sets.map (fun rs => RespPacket.ok 1 rs.affectedRows (rs.lastInsertId.getD 0))

/-- The statements `ComQueryHandler::handle` distinguishes.  `query` keeps
only the rendered SQL of the boxed query AST (the handler only ever calls
`(*q).to_string()` on it); `other` stands for every remaining
`sqlparser::ast::Statement` variant, all handled by the empty `_` arm. -/
inductive Statement where
  | query (sql : String)
  | setVariable
  | other
deriving DecidableEq

/-- The classification test of text.rs line 28: `sql.starts_with("SET")` —
a case-sensitive prefix test, expressed over the character sequence. -/
def isSetPrefixed (sql : String) : Bool := "SET".data.isPrefixOf sql.data

/-- Statement selection in `ComQueryHandler::handle` (text.rs lines 28-38):
a `"SET"`-prefixed text is turned directly into a `SetVariable` statement;
anything else goes through `crate::parser::mysql::parser` (parser/mysql.rs),
whose `Parser::parse_sql(..).unwrap()` together with the caller's
`.pop().unwrap()` panics when parsing fails or yields nothing — modelled by
`extParse` returning `none`. -/
def selectStatement (extParse : String → Option Statement) (sql : String) :
    Option Statement :=
  if isSetPrefixed sql then some Statement.setVariable else extParse sql

/-- `ComQueryHandler::handle` (text.rs lines 14-158), with the external SQL
parser and the backend's response (`conn.query_iter`) as parameters.
`none` models a panic (an `unwrap` failure): the handler returns nothing and
no packet is sent.  On the normal paths the handler returns `Some(payloads)`:
the `Query` arm's packets, the `SetVariable` arm's packets, or the empty
vector from the `_ => {}` arm. -/
def comQueryHandle (extParse : String → Option Statement)
    (backend : List TextResultSet) (sql : String) : Option (List RespPacket) :=
  match selectStatement extParse sql with
  | none => none
  | some (Statement.query _) => some (emitQuery backend)
  | some Statement.setVariable => some (emitSetVariable backend)
  | some Statement.other => some []

/-- An external parser that fails on every input, modelling
`Parser::parse_sql` returning `Err` (so that the source's `.unwrap()`
panics).  The sqlparser version pinned by text.rs's `Statement::SetVariable`
shape has no grammar for `USE`/`SAVEPOINT` and rejects malformed SQL. -/
def extParseFail : String → Option Statement := fun _ => none

/-- A concrete one-column, one-row backend result set used to evaluate the
emission loop on small inputs. -/
def colA : ColumnMeta :=
  { characterSet := 33, flags := 0, schema := "test", table := "t_order",
    orgTable := "t_order", name := "a", orgName := "a", columnLength := 11,
    columnType := 3, decimals := 0 }

def rsOne : TextResultSet :=
  { columns := [colA], rows := [[Value.bytes [49]]],
    affectedRows := 0, lastInsertId := none }

/-- A concrete status-only backend result set (no columns, no rows). -/
def rsStatus : TextResultSet :=
  { columns := [], rows := [], affectedRows := 1, lastInsertId := some 7 }

/-- Spec-side packet shape of one result set, written from the spec's words
(`FieldCount, ColumnDefinition×k, Eof, Row×m, Eof`) for comparison with the
source-side `emitResultSet`. -/
def specResultSetKinds (rs : TextResultSet) : List PacketKind :=
  PacketKind.fieldCount
    :: (List.replicate rs.columns.length PacketKind.columnDefinition
      ++ PacketKind.eof
        :: (List.replicate rs.rows.length PacketKind.textRow
          ++ [PacketKind.eof]))

/-! ## SQLStatementContext (parser/sql/mod.rs) -/

/-- An insert on Rust's `HashMap<String, String>`: the new binding replaces
any previous binding of the same key.  Order of the remaining bindings is
irrelevant to every property stated here. -/
def hashMapInsert (m : List (String × String)) (k v : String) :
    List (String × String) :=
  (k, v) :: m.filter (fun p => p.1 ≠ k)

/-- `DMLStatementContext` (parser/sql/mod.rs lines 28-44). -/
structure DMLStatementContext where
  tables : List (String × String)
  route_columns : List (String × String)
deriving DecidableEq

def DMLStatementContext.new : DMLStatementContext :=
  { tables := [], route_columns := [] }

def DMLStatementContext.add_table (c : DMLStatementContext)
    (table aliasStr : String) : DMLStatementContext :=
  { c with tables := hashMapInsert c.tables table aliasStr }

/-- `SelectStatementContext` (parser/sql/mod.rs lines 46-60). -/
structure SelectStatementContext where
  common_ctx : DMLStatementContext
deriving DecidableEq

def SelectStatementContext.new : SelectStatementContext :=
  { common_ctx := DMLStatementContext.new }

def SelectStatementContext.add_table (c : SelectStatementContext)
    (table aliasStr : String) : SelectStatementContext :=
  { c with common_ctx := c.common_ctx.add_table table aliasStr }

/-- `UpdateStatementContext` (parser/sql/mod.rs lines 62-76). -/
structure UpdateStatementContext where
  common_ctx : DMLStatementContext
deriving DecidableEq

def UpdateStatementContext.new : UpdateStatementContext :=
  { common_ctx := DMLStatementContext.new }

def UpdateStatementContext.add_table (c : UpdateStatementContext)
    (table aliasStr : String) : UpdateStatementContext :=
  { c with common_ctx := c.common_ctx.add_table table aliasStr }

/-- `DeleteStatementContext` (parser/sql/mod.rs lines 78-92). -/
structure DeleteStatementContext where
  common_ctx : DMLStatementContext
deriving DecidableEq

def DeleteStatementContext.new : DeleteStatementContext :=
  { common_ctx := DMLStatementContext.new }

def DeleteStatementContext.add_table (c : DeleteStatementContext)
    (table aliasStr : String) : DeleteStatementContext :=
  { c with common_ctx := c.common_ctx.add_table table aliasStr }

/-- `SQLStatementContext` (parser/sql/mod.rs lines 8-13). -/
inductive SQLStatementContext where
  | select (s : SelectStatementContext)
  | update (u : UpdateStatementContext)
  | delete (d : DeleteStatementContext)
  | defaultCtx
deriving DecidableEq

/-- `SQLStatementContext::add_table` (parser/sql/mod.rs lines 16-25): the
`Select` arm forwards to the inner context's `add_table`; the `Update`,
`Delete` and `Default` arms are the source's empty `{}` blocks. -/
def SQLStatementContext.add_table :
    SQLStatementContext → String → String → SQLStatementContext
  | .select s, table, aliasStr => .select (s.add_table table aliasStr)
  | .update u, _, _ => .update u
  | .delete d, _, _ => .delete d
  | .defaultCtx, _, _ => .defaultCtx

/-- The table map held by a statement context (empty for `Default`). -/
def SQLStatementContext.tablesOf : SQLStatementContext → List (String × String)
  | .select s => s.common_ctx.tables
  | .update u => u.common_ctx.tables
  | .delete d => d.common_ctx.tables
  | .defaultCtx => []

/-! ## SQL rewriter (modelled; used by the identity-routing claim)

Modelled from the spec: `parser/sql/rewrite.rs` (`SQLReWrite`) and
`parser/sql/analyse.rs` are not under src/.  Per spec section 4.6 the rewriter
walks the statement and reproduces its SQL text, replacing each routed
logical table name by the physical name that the routing decision (`ctx`,
a `HashMap<String, String>` in the `test_route` test) assigns to it, and
preserving aliases and all other syntax verbatim; a table absent from the
routing decision keeps its own name. -/

inductive SQLExpr where
  | ident (name : String)
  | num (n : Nat)
  | call (fname : String) (args : List SQLExpr)
  | binOp (op : String) (lhs rhs : SQLExpr)

structure OrderByItem where
  expr : SQLExpr
  descending : Bool

structure TableWithAlias where
  name : String
  aliasName : Option String

/-- A single-table `SELECT` statement: projection, `FROM` table, optional
`WHERE` clause and `ORDER BY` items — the shape exercised by the
`test_route` test in handler/mysql/mod.rs. -/
structure SelectStatement where
  projection : List SQLExpr
  fromTable : TableWithAlias
  selection : Option SQLExpr
  orderBy : List OrderByItem

/-- Lookup in the routing decision (`HashMap::get`). -/
def lookupCtx (ctx : List (String × String)) (t : String) : Option String :=
  (ctx.find? (fun p => p.1 = t)).map (fun p => p.2)

mutual

def renderExpr : SQLExpr → String
  | .ident n => n
  | .num n => toString n
  | .call f args => f ++ "(" ++ String.intercalate ", " (renderExprList args) ++ ")"
  | .binOp op l r => renderExpr l ++ " " ++ op ++ " " ++ renderExpr r

def renderExprList : List SQLExpr → List String
  | [] => []
  | e :: es => renderExpr e :: renderExprList es

end

def renderOrderByItem (o : OrderByItem) : String :=
  renderExpr o.expr ++ (if o.descending then " DESC" else "")

/-- Modelled from the spec: the rewrite of a `SELECT` statement
(`SQLReWrite::rewrite` of the absent parser/sql/rewrite.rs).  It reproduces
the statement's SQL text, mapping the `FROM` table's logical name through the
routing decision (defaulting to the logical name itself when unrouted) and
keeping every other piece of syntax, including the alias, verbatim. -/
def rewriteSelect (ctx : List (String × String)) (s : SelectStatement) : String :=
  let physical := (lookupCtx ctx s.fromTable.name).getD s.fromTable.name
  "SELECT " ++ String.intercalate ", " (s.projection.map renderExpr)
    ++ " FROM " ++ physical
    ++ (match s.fromTable.aliasName with
        | some a => " AS " ++ a
        | none => "")
    ++ (match s.selection with
        | some w => " WHERE " ++ renderExpr w
        | none => "")
    ++ (match s.orderBy with
        | [] => ""
        | items => " ORDER BY " ++ String.intercalate ", " (items.map renderOrderByItem))

/-- ASCII uppercase of one character — the effect of Rust's
`str::to_uppercase` (used by the `test_route` assertion) on the ASCII SQL
texts compared here. -/
def upperChar : Char → Char
  | 'a' => 'A'
  | 'b' => 'B'
  | 'c' => 'C'
  | 'd' => 'D'
  | 'e' => 'E'
  | 'f' => 'F'
  | 'g' => 'G'
  | 'h' => 'H'
  | 'i' => 'I'
  | 'j' => 'J'
  | 'k' => 'K'
  | 'l' => 'L'
  | 'm' => 'M'
  | 'n' => 'N'
  | 'o' => 'O'
  | 'p' => 'P'
  | 'q' => 'Q'
  | 'r' => 'R'
  | 's' => 'S'
  | 't' => 'T'
  | 'u' => 'U'
  | 'v' => 'V'
  | 'w' => 'W'
  | 'x' => 'X'
  | 'y' => 'Y'
  | 'z' => 'Z'
  | c => c

/-- ASCII uppercase of a string (Rust's `to_uppercase` on ASCII input). -/
def strUpper (s : String) : String := String.mk (s.data.map upperChar)

/-- A routing decision that maps every table to itself: every lookup,
defaulted to the looked-up name, returns that name. -/
def IsIdentityRouting (ctx : List (String × String)) : Prop :=
  ∀ t : String, (lookupCtx ctx t).getD t = t

/-- The exact SQL text of the `test_route` test (handler/mysql/mod.rs lines
127-130, after Rust's line-continuation escapes collapse). -/
def testRouteSql : String :=
  "SELECT a, b, 123, myfunc(b) FROM t_order WHERE user_id = 1 and a > b AND b < 100 ORDER BY a DESC, b"

/-- The AST of `testRouteSql` as the external parser produces it. -/
def testRouteAst : SelectStatement :=
  { projection :=
      [SQLExpr.ident "a", SQLExpr.ident "b", SQLExpr.num 123,
        SQLExpr.call "myfunc" [SQLExpr.ident "b"]],
    fromTable := { name := "t_order", aliasName := none },
    selection :=
      some (SQLExpr.binOp "AND"
        (SQLExpr.binOp "AND"
          (SQLExpr.binOp "=" (SQLExpr.ident "user_id") (SQLExpr.num 1))
          (SQLExpr.binOp ">" (SQLExpr.ident "a") (SQLExpr.ident "b")))
        (SQLExpr.binOp "<" (SQLExpr.ident "b") (SQLExpr.num 100))),
    orderBy :=
      [{ expr := SQLExpr.ident "a", descending := true },
        { expr := SQLExpr.ident "b", descending := false }] }

/-! ## Command dispatch (handler/mysql/mod.rs) -/

/-- Modelled from the spec: `MySQLCommandPacketType` lives in the absent
`protocol::database::mysql::constant` module.  Spec section 3 gives
unrecognized command bytes a distinct variant carrying no payload, and
section 6 lists the recognized byte values. -/
inductive MySQLCommandPacketType where
  | comQuit
  | comQuery
  | comPing
  | comStmtPrepare
  | comStmtExecute
  | comStmtClose
  | comStmtReset
  | unrecognized
deriving DecidableEq

/-- Modelled from the spec: `MySQLCommandPacketType::value_of`, using the
byte values of spec section 6 (`0x01` quit, `0x03` query, `0x0e` ping,
`0x16` statement-prepare, `0x17` statement-execute, `0x19` statement-close,
`0x1a` statement-reset). -/
def MySQLCommandPacketType.value_of (b : Nat) : MySQLCommandPacketType :=
  if b = 0x01 then .comQuit
  else if b = 0x03 then .comQuery
  else if b = 0x0e then .comPing
  else if b = 0x16 then .comStmtPrepare
  else if b = 0x17 then .comStmtExecute
  else if b = 0x19 then .comStmtClose
  else if b = 0x1a then .comStmtReset
  else .unrecognized

/-- `CommandRootHandler::handle` (handler/mysql/mod.rs lines 20-50): match on
`value_of` of the command-type byte, each recognized arm delegating to its
handler (the sub-handlers' results are parameters here: the statement
handlers live in the absent binary.rs), and `_ => None`. -/
def commandRootHandle
    (comQueryR comStmtPrepareR comStmtExecuteR comStmtCloseR comStmtResetR
      comQuitR comPingR : Option (List RespPacket))
    (commandPacketType : Nat) : Option (List RespPacket) :=
  match MySQLCommandPacketType.value_of commandPacketType with
  | .comQuery => comQueryR
  | .comStmtPrepare => comStmtPrepareR
  | .comStmtExecute => comStmtExecuteR
  | .comStmtClose => comStmtCloseR
  | .comStmtReset => comStmtResetR
  | .comQuit => comQuitR
  | .comPing => comPingR
  | .unrecognized => none

/-! ## Session context and the auth / ping / quit handlers -/

/-- Modelled from the spec: `PreparedStatement` (spec section 3); the
`session` module is not under src/. -/
structure PreparedStatement where
  id : Nat
  sqlText : String
  parameterCount : Nat
  parameterTypes : List Nat
deriving DecidableEq

/-- Modelled from the spec: `SessionContext` (spec section 3); the `session`
module is not under src/.  Holds the authorization flag, the sequence-id
cursor, the active database, and the prepared-statement registry. -/
structure SessionContext where
  authorized : Bool
  nextSequenceId : Nat
  currentDatabase : Option String
  preparedStatements : List (Nat × PreparedStatement)
deriving DecidableEq

/-- The fields of `MySQLHandshakeResponse41Packet` that `AuthHandler::handle`
can observe after decoding (handler/mysql/mod.rs lines 66-83). -/
structure MySQLHandshakeResponse41Packet where
  sequenceId : Nat
  capabilityFlags : Nat
  maxPacketSize : Nat
  characterSet : Nat
  username : String
  authResponse : List Nat
  database : String
  authPluginName : String
deriving DecidableEq

/-- `AuthHandler::handle` (handler/mysql/mod.rs lines 63-89): the
database-exists check and the plugin-auth check are both empty `if` bodies in
the source, so for every decoded handshake response the handler builds one
`Ok` packet at the response's sequence id + 1 and returns it. -/
def authHandle (r : MySQLHandshakeResponse41Packet) : List RespPacket :=
  [RespPacket.ok (r.sequenceId + 1) 0 0]

/-- The authorization flag after the accept loop handles the first client
packet (main.rs lines 162-180): when not yet authorized, the loop decodes the
handshake response, sends the `Ok` packet, and sets `authorized = true`
unconditionally. -/
def afterAuthStep (authorized : Bool) : Bool :=
  if authorized then authorized else true

/-- `ComPingHandler::handle` (handler/mysql/mod.rs lines 101-109): builds one
`Ok` packet with sequence id 1 and returns it; the body never reads or
writes `session_ctx`, so the session is returned unchanged. -/
def comPingHandle (s : SessionContext) : List RespPacket × SessionContext :=
  ([RespPacket.ok 1 0 0], s)

/-- A concrete decoded handshake response, used as a witness input. -/
def respSample : MySQLHandshakeResponse41Packet :=
  { sequenceId := 1, capabilityFlags := 0x8205,
    maxPacketSize := 16777215, characterSet := 33, username := "root",
    authResponse := [1, 2, 3], database := "test",
    authPluginName := "mysql_native_password" }

/-- A concrete session context, used as a witness input. -/
def sessionSample : SessionContext :=
  { authorized := true, nextSequenceId := 0,
    currentDatabase := some "test", preparedStatements := [] }

/-! ## Helper lemmas -/

theorem emitColumnDefs_snd_map_kindOf (cols : List ColumnMeta) (seq : Nat) :
    (emitColumnDefs seq cols).2.map kindOf
      = List.replicate cols.length PacketKind.columnDefinition := by
  induction cols generalizing seq with
  | nil => rfl
  | cons c rest ih => simp [emitColumnDefs, kindOf, List.replicate_succ, ih]

theorem emitRows_snd_map_kindOf (rows : List (List Value)) (seq columnsSize : Nat) :
    (emitRows seq columnsSize rows).2.map kindOf
      = List.replicate rows.length PacketKind.textRow := by
  induction rows generalizing seq with
  | nil => rfl
  | cons row rest ih => simp [emitRows, kindOf, List.replicate_succ, ih]

theorem emitResultSet_snd_map_kindOf (seq : Nat) (rs : TextResultSet) :
    (emitResultSet seq rs).2.map kindOf = specResultSetKinds rs := by
  simp [emitResultSet, specResultSetKinds, kindOf,
    emitColumnDefs_snd_map_kindOf, emitRows_snd_map_kindOf]

theorem emitQuerySets_map_kindOf (sets : List TextResultSet) (seq : Nat) :
    (emitQuerySets seq sets).map kindOf = sets.flatMap specResultSetKinds := by
  induction sets generalizing seq with
  | nil => rfl
  | cons rs rest ih => simp [emitQuerySets, emitResultSet_snd_map_kindOf, ih]

theorem emitSetVariable_map_kindOf (sets : List TextResultSet) :
    (emitSetVariable sets).map kindOf = List.replicate sets.length PacketKind.ok := by
  simp [emitSetVariable, kindOf, List.map_map, Function.comp_def, List.map_const']

theorem emitSetVariable_all_ok (sets : List TextResultSet) :
    (emitSetVariable sets).all isOkPacket = true := by
  induction sets with
  | nil => rfl
  | cons rs rest ih => simp [emitSetVariable, isOkPacket, ih]

theorem emitSetVariable_length (sets : List TextResultSet) :
    (emitSetVariable sets).length = sets.length := by
  simp [emitSetVariable]

/-! ## Claim theorems -/

/-- Claim C1 (evaluation of the code at the failing input): for a command
producing two backend result sets (each one column, one row), the emitted
sequence ids are `[1, 2, 3, 4, 5, 5, 6, 7, 8, 9]` — the second result set's
`FieldCount` packet repeats the sequence id of the first set's closing `Eof`
(the counter is not advanced at the top of the result-set loop), so the ids
are not strictly increasing across result sets; within the first result set
alone they are strictly increasing from 1. -/
theorem comQuery_second_result_set_repeats_sequence_id :
    seqIds (emitQuery [rsOne, rsOne]) = [1, 2, 3, 4, 5, 5, 6, 7, 8, 9] ∧
    strictlyIncreasing (seqIds (emitQuery [rsOne, rsOne])) = false ∧
    strictlyIncreasing (seqIds (emitQuery [rsOne])) = true := by
  decide

/-- Claim C2: for a query statement producing any list of backend result
sets, the `Query` arm emits, per result set, exactly
`FieldCount, ColumnDefinition×k, Eof, Row×m, Eof`, concatenated in backend
result-set order; and the `SetVariable` arm emits exactly one `Ok` packet per
result set instead. -/
theorem comQuery_packet_shape_per_result_set (sets : List TextResultSet) :
    (emitQuery sets).map kindOf = sets.flatMap specResultSetKinds ∧
    (emitSetVariable sets).map kindOf = List.replicate sets.length PacketKind.ok ∧
    (emitSetVariable sets).length = sets.length := by
  exact ⟨emitQuerySets_map_kindOf sets 1, emitSetVariable_map_kindOf sets,
    emitSetVariable_length sets⟩

/-- Claim C3 (counterexample): the Query handler's only status
classification is the case-sensitive prefix test `sql.starts_with("SET")`
(text.rs line 28); lowercase `set` texts and `USE`/`SAVEPOINT` texts fail it,
so they are not classified as status-producing — they fall through to the
external parser, and when that parser yields nothing the handler panics
(`.pop().unwrap()`), emitting no packet at all rather than an `Ok`. -/
theorem set_family_lowercase_not_status_classified :
    isSetPrefixed "set names utf8" = false ∧
    isSetPrefixed "USE mydb" = false ∧
    isSetPrefixed "SAVEPOINT sp1" = false ∧
    comQueryHandle extParseFail [] "savepoint sp1" = none := by
  decide

/-- Claim C3 (amended): every SQL text starting with the exact uppercase
prefix `"SET"` is classified as a status-producing statement by the Query
handler itself, and the response consists solely of `Ok` packets (one per
backend result set) — never `FieldCount`/`ColumnDefinition`/row packets. -/
theorem set_prefixed_query_emits_only_ok_packets
    (extParse : String → Option Statement) (backend : List TextResultSet)
    (sql : String) (h : isSetPrefixed sql = true) :
    comQueryHandle extParse backend sql = some (emitSetVariable backend) ∧
    (emitSetVariable backend).all isOkPacket = true := by
  refine ⟨?_, emitSetVariable_all_ok backend⟩
  simp [comQueryHandle, selectStatement, h]

/-- Witness for the amended claim C3 at `"SET NAMES utf8"` with a
status-only backend result set. -/
theorem set_prefixed_query_emits_only_ok_packets_witness :
    comQueryHandle extParseFail [rsStatus] "SET NAMES utf8"
        = some (emitSetVariable [rsStatus]) ∧
    (emitSetVariable [rsStatus]).all isOkPacket = true :=
  set_prefixed_query_emits_only_ok_packets extParseFail [rsStatus]
    "SET NAMES utf8" (by decide)

/-- Claim C4 (evaluation of the code at the failing input):
`SQLStatementContext::add_table` records the table for a `Select` context but
is a no-op for `Update` and `Delete` contexts (their match arms are empty),
leaving their table maps empty. -/
theorem add_table_update_delete_contexts_noop :
    (SQLStatementContext.update UpdateStatementContext.new).add_table "t_order" "o"
        = SQLStatementContext.update UpdateStatementContext.new ∧
    (SQLStatementContext.delete DeleteStatementContext.new).add_table "t_order" "o"
        = SQLStatementContext.delete DeleteStatementContext.new ∧
    ((SQLStatementContext.update UpdateStatementContext.new).add_table "t_order" "o").tablesOf
        = [] ∧
    ((SQLStatementContext.select SelectStatementContext.new).add_table "t_order" "o").tablesOf
        = [("t_order", "o")] := by
  decide

/-- Claim C5: under identity routing the rewritten SQL equals the rewrite
under the empty routing decision (the rewriter reproduces the statement with
every table name unchanged), and on the `test_route` statement the rewritten
SQL equals the input SQL under case-insensitive comparison. -/
theorem identity_routing_rewrite_preserves_sql :
    (∀ (ctx : List (String × String)) (s : SelectStatement),
        IsIdentityRouting ctx → rewriteSelect ctx s = rewriteSelect [] s) ∧
    strUpper (rewriteSelect [] testRouteAst) = strUpper testRouteSql := by
  constructor
  · intro ctx s h
    simp only [rewriteSelect]
    rw [h s.fromTable.name]
    simp [lookupCtx]
  · decide

/-- Witness for claim C5: the routing decision mapping `t_order` to itself
is identity routing and leaves the `test_route` statement's SQL unchanged. -/
theorem identity_routing_rewrite_preserves_sql_witness :
    rewriteSelect [("t_order", "t_order")] testRouteAst
        = rewriteSelect [] testRouteAst :=
  identity_routing_rewrite_preserves_sql.1 [("t_order", "t_order")] testRouteAst
    (by
      intro t
      by_cases h : "t_order" = t
      · simp [lookupCtx, List.find?, h]
      · simp [lookupCtx, List.find?, h])

/-- Claim C6: for every command-type byte outside the recognized set
(0x01 quit, 0x03 query, 0x0e ping, 0x16 stmt-prepare, 0x17 stmt-execute,
0x19 stmt-close, 0x1a stmt-reset), `CommandRootHandler::handle` matches no
handler and returns `None`, whatever the individual handlers would have
answered. -/
theorem unrecognized_command_type_yields_no_response
    (comQueryR comStmtPrepareR comStmtExecuteR comStmtCloseR comStmtResetR
      comQuitR comPingR : Option (List RespPacket))
    (b : Nat)
    (h : b ∉ ([0x01, 0x03, 0x0e, 0x16, 0x17, 0x19, 0x1a] : List Nat)) :
    commandRootHandle comQueryR comStmtPrepareR comStmtExecuteR comStmtCloseR
      comStmtResetR comQuitR comPingR b = none := by
  simp only [List.mem_cons, List.not_mem_nil, or_false, not_or] at h
  obtain ⟨h1, h2, h3, h4, h5, h6, h7⟩ := h
  simp [commandRootHandle, MySQLCommandPacketType.value_of,
    h1, h2, h3, h4, h5, h6, h7]

/-- Witness for claim C6 at the unrecognized command byte 0x04
(COM_FIELD_LIST, not dispatched by the root handler). -/
theorem unrecognized_command_type_yields_no_response_witness :
    commandRootHandle (some []) (some []) (some []) (some []) (some [])
      (some []) (some []) 0x04 = none :=
  unrecognized_command_type_yields_no_response (some []) (some []) (some [])
    (some []) (some []) (some []) (some []) 0x04 (by decide)

/-- Claim C7: for every decoded client handshake response,
`AuthHandler::handle` returns exactly one `Ok` packet (at the response's
sequence id + 1) and never an `Err` packet, and the accept loop then marks
the connection authorized. -/
theorem auth_handler_always_ok_and_authorized
    (r : MySQLHandshakeResponse41Packet) :
    authHandle r = [RespPacket.ok (r.sequenceId + 1) 0 0] ∧
    (authHandle r).length = 1 ∧
    (authHandle r).all isOkPacket = true ∧
    afterAuthStep false = true := by
  simp [authHandle, isOkPacket, afterAuthStep]

/-- Claim C8 (evaluation of the code at the failing input): on SQL the
parser cannot classify, `ComQueryHandler::handle` reaches
`Parser::parse_sql(..).unwrap()` / `.pop().unwrap()` and panics — the
handler produces no response at all (`none`), in particular no `Err`
packet. -/
theorem unparsable_sql_panics_without_err_packet :
    comQueryHandle extParseFail [] "THIS IS NOT SQL" = none ∧
    isSetPrefixed "THIS IS NOT SQL" = false := by
  decide

/-- Claim C9: `ComPingHandler::handle` returns exactly one `Ok` packet and
leaves the session context completely unchanged — in particular the
authorization flag and the prepared-statement registry. -/
theorem ping_handler_ok_and_session_unchanged (s : SessionContext) :
    comPingHandle s = ([RespPacket.ok 1 0 0], s) ∧
    (comPingHandle s).1.length = 1 ∧
    (comPingHandle s).1.all isOkPacket = true ∧
    (comPingHandle s).2.authorized = s.authorized ∧
    (comPingHandle s).2.preparedStatements = s.preparedStatements := by
  simp [comPingHandle, isOkPacket]

/-- Claim C10: in the text-row re-encoding, every cell value that is neither
a byte string nor NULL is emitted as `(true, [])` — present flag, empty
payload, value silently discarded; NULL cells are the only ones emitted with
the null flag; byte-string cells keep their bytes. -/
theorem cell_encoding_non_bytes_non_null_empty_payload :
    (∀ v : Value, (∀ data, v ≠ Value.bytes data) → v ≠ Value.null →
        cellData v = (true, [])) ∧
    (∀ v : Value, (cellData v).1 = false ↔ v = Value.null) ∧
    (∀ data, cellData (Value.bytes data) = (true, data)) := by
  refine ⟨?_, ?_, fun data => rfl⟩
  · intro v hb hn
    cases v with
    | bytes data => exact absurd rfl (hb data)
    | null => exact absurd rfl hn
    | int i => rfl
    | uint u => rfl
    | floatV => rfl
    | dateV => rfl
    | timeV => rfl
  · intro v
    cases v <;> simp [cellData]

/-- Witness for claim C10 at the integer cell value 5 and at NULL. -/
theorem cell_encoding_non_bytes_non_null_empty_payload_witness :
    cellData (Value.int 5) = (true, []) ∧ (cellData Value.null).1 = false :=
  ⟨cell_encoding_non_bytes_non_null_empty_payload.1 (Value.int 5)
      (fun data h => nomatch h) (fun h => nomatch h),
    by decide⟩

/-- Witness for claim C2 at a concrete two-result-set backend response. -/
theorem comQuery_packet_shape_per_result_set_witness :
    (emitQuery [rsOne, rsStatus]).map kindOf
        = [rsOne, rsStatus].flatMap specResultSetKinds ∧
    (emitSetVariable [rsOne, rsStatus]).map kindOf
        = List.replicate 2 PacketKind.ok ∧
    (emitSetVariable [rsOne, rsStatus]).length = 2 :=
  comQuery_packet_shape_per_result_set [rsOne, rsStatus]

/-- Witness for claim C7 at a concrete decoded handshake response. -/
theorem auth_handler_always_ok_and_authorized_witness :
    authHandle respSample = [RespPacket.ok 2 0 0] ∧
    afterAuthStep false = true := by
  have h := auth_handler_always_ok_and_authorized respSample
  exact ⟨h.1, h.2.2.2⟩

/-- Witness for claim C9 at a concrete session context. -/
theorem ping_handler_ok_and_session_unchanged_witness :
    comPingHandle sessionSample = ([RespPacket.ok 1 0 0], sessionSample) :=
  (ping_handler_ok_and_session_unchanged sessionSample).1
